import Mathlib

set_option linter.unnecessarySeqFocus false

/-!
Verification of the swarmgate multi-tenant Docker Swarm proxy
(routes file, `setupRoutes`): a shallow embedding of the route
handlers and their helper functions, plus theorems settling the
behavioural claims about ownership checking, label stamping,
registry-auth handling and name-prefix enforcement.

JavaScript conventions used throughout the embedding:
* an object field that may be absent is an `Option`;
* a missing field read (`undefined.x`) aborts the handler with a
  TypeError, which the surrounding try/catch turns into a 500 response;
* `!x` on a plain object is `false` (objects are truthy);
* `!s` on a string is `true` exactly for the empty string;
* a JS object of labels is modelled as an association list whose lookup
  is the first match.
-/

namespace Swarmgate

/-- Labels of a resource: a JS string-to-string object. -/
abbrev Labels := List (String × String)

/-- HTTP headers: names (arbitrary casing) paired with values. -/
abbrev Headers := List (String × String)

/-- The fixed tenant label key (`tenantLabel` in the source). -/
def tenantLabel : String := "com.github.neuroforgede.swarmgate.tenant"

/-- `KNOWN_VOLUME_TYPES` from the source: the mount types the proxy understands. -/
def KNOWN_VOLUME_TYPES : List String := ["bind", "volume", "tmpfs", "npipe", "cluster"]

/-- One entry of the registry auth overrides file. -/
structure RegistryAuth where
  anonymous : Bool := false
  username : Option String := none
  password : Option String := none
  email : Option String := none
  serveraddress : Option String := none
deriving DecidableEq, Repr

/-- Startup configuration of one proxy instance: the tenant label value
passed to `setupRoutes`, and the environment-derived constants. -/
structure Config where
  tenantLabelValue : String
  namePrefix : String
  allowedVolumeDrivers : List String := ["local"]
  allowedVolumeTypes : List String := KNOWN_VOLUME_TYPES
  allowPortExpose : Bool := false
  serviceAllowListedNetworks : List String := []
  onlyKnownRegistries : Bool := false
  registryAuthOverrides : List (String × RegistryAuth) := []
deriving DecidableEq, Repr

/-- ASCII lower-casing of one character, as applied to header names. -/
def lowerChar (c : Char) : Char :=
  if c.toNat >= 65 && c.toNat <= 90 then Char.ofNat (c.toNat + 32) else c

/-- `toLowerCase` on a header name. -/
def lowerStr (s : String) : String :=
  String.mk (s.toList.map lowerChar)

/-- `s.startsWith(p)`. -/
def strStartsWith (s p : String) : Bool :=
  p.toList.isPrefixOf s.toList

/-- `{ ...labels, [k]: v }`: JS object spread followed by a computed-key
override.  The result maps `k` to `v` and leaves every other key as it was. -/
def stampLabel (l : Labels) (k v : String) : Labels :=
  (k, v) :: l.filter (fun p => !(p.1 == k))

/-- `labels && labels[tenantLabel] == value` for an optional labels object:
false when the object is absent or the key missing, else string comparison. -/
def ownLabelB (cfg : Config) : Option Labels → Bool
  | none => false
  | some l =>
    match l.lookup tenantLabel with
    | some v => v == cfg.tenantLabelValue
    | none => false

/-- Inspect result of a service.  `specLabels` is `service.Spec?.Labels`:
`none` when `Spec` or `Spec.Labels` is missing. -/
structure Service where
  specLabels : Option Labels
deriving DecidableEq, Repr

/-- Inspect result of a network. -/
structure Network where
  name : String
  labels : Option Labels
deriving DecidableEq, Repr

/-- Inspect result of a secret.  `specLabels` is `secret.Spec && secret.Spec.Labels`. -/
structure Secret where
  specLabels : Option Labels
deriving DecidableEq, Repr

/-- Inspect result of a config. -/
structure ConfigRes where
  specLabels : Option Labels
deriving DecidableEq, Repr

/-- Inspect result of a volume. -/
structure Volume where
  name : String
  labels : Option Labels
deriving DecidableEq, Repr

/-- Inspect result of a task: only the owning service id matters. -/
structure TaskRes where
  serviceID : String
deriving DecidableEq, Repr

/-- Outcome of `checkPermissionsOnDockerImage` (the distribution probe
against the engine), as resolved by the source promise. -/
structure ProbeResult where
  success : Bool
  errorMessage : String := ""
deriving DecidableEq, Repr

/-- The engine as visible to the proxy: inspectable resources addressed by
the identifier the handlers pass (id or name), absent entries standing for
inspect errors, plus the distribution permission probe. -/
structure Engine where
  services : List (String × Service) := []
  tasks : List (String × TaskRes) := []
  networks : List (String × Network) := []
  secrets : List (String × Secret) := []
  configs : List (String × ConfigRes) := []
  volumes : List (String × Volume) := []
  probe : String → Option RegistryAuth → ProbeResult := fun _ _ => { success := true }

/-- `isServiceOwned`: no `Spec?.Labels` means not owned, otherwise compare
the tenant label value. -/
def isServiceOwned (cfg : Config) (s : Service) : Bool :=
  match s.specLabels with
  | none => false
  | some l =>
    match l.lookup tenantLabel with
    | some v => v == cfg.tenantLabelValue
    | none => false

/-- `isNetworkOwned`: allow-listed names count when the flag is set,
otherwise the tenant label decides. -/
def isNetworkOwned (cfg : Config) (n : Network) (includeAllowListed : Bool) : Bool :=
  if includeAllowListed && cfg.serviceAllowListedNetworks.contains n.name then
    true
  else
    match n.labels with
    | none => false
    | some l =>
      match l.lookup tenantLabel with
      | some v => v == cfg.tenantLabelValue
      | none => false

/-- `isSecretOwned`: `Spec && Spec.Labels && Spec.Labels[tenantLabel] === value`. -/
def isSecretOwned (cfg : Config) (s : Secret) : Bool :=
  match s.specLabels with
  | none => false
  | some l =>
    match l.lookup tenantLabel with
    | some v => v == cfg.tenantLabelValue
    | none => false

/-- `isConfigOwned`: same shape as `isSecretOwned`. -/
def isConfigOwned (cfg : Config) (c : ConfigRes) : Bool :=
  match c.specLabels with
  | none => false
  | some l =>
    match l.lookup tenantLabel with
    | some v => v == cfg.tenantLabelValue
    | none => false

/-- `isVolumeOwned`: `volume.Labels && volume.Labels[tenantLabel] == value`. -/
def isVolumeOwned (cfg : Config) (v : Volume) : Bool :=
  match v.labels with
  | none => false
  | some l =>
    match l.lookup tenantLabel with
    | some lv => lv == cfg.tenantLabelValue
    | none => false

/-- `isOwnedService`: inspect on the engine, any error gives false. -/
def isOwnedService (cfg : Config) (eng : Engine) (id : String) : Bool :=
  match eng.services.lookup id with
  | none => false
  | some s => isServiceOwned cfg s

/-- `isOwnedNetwork`: inspect on the engine, any error gives false. -/
def isOwnedNetwork (cfg : Config) (eng : Engine) (id : String)
    (includeAllowListed : Bool) : Bool :=
  match eng.networks.lookup id with
  | none => false
  | some n => isNetworkOwned cfg n includeAllowListed

/-- `isOwnedSecret`. -/
def isOwnedSecret (cfg : Config) (eng : Engine) (id : String) : Bool :=
  match eng.secrets.lookup id with
  | none => false
  | some s => isSecretOwned cfg s

/-- `isOwnedConfig`. -/
def isOwnedConfig (cfg : Config) (eng : Engine) (id : String) : Bool :=
  match eng.configs.lookup id with
  | none => false
  | some c => isConfigOwned cfg c

/-- `isOwnedVolume`: the source additionally requires `volume.Labels` to be
present before consulting `isVolumeOwned`. -/
def isOwnedVolume (cfg : Config) (eng : Engine) (nm : String) : Bool :=
  match eng.volumes.lookup nm with
  | none => false
  | some v => v.labels.isSome && isVolumeOwned cfg v

/-- `isTaskOfOwnedService`: inspect the task, then check its service. -/
def isTaskOfOwnedService (cfg : Config) (eng : Engine) (id : String) : Bool :=
  match eng.tasks.lookup id with
  | none => false
  | some t => isOwnedService cfg eng t.serviceID

/-- `doesVolumeExist`: inspect succeeds. -/
def doesVolumeExist (eng : Engine) (nm : String) : Bool :=
  (eng.volumes.lookup nm).isSome

/-- `isResourceNameAllowed`: the name must start with the configured prefix. -/
def isResourceNameAllowed (cfg : Config) (name : String) : Bool :=
  strStartsWith name cfg.namePrefix

/-- `isKnownMountType`. -/
def isKnownMountType (t : String) : Bool :=
  KNOWN_VOLUME_TYPES.contains t

/-- `isMountTypeAllowed`. -/
def isMountTypeAllowed (cfg : Config) (t : String) : Bool :=
  cfg.allowedVolumeTypes.contains t

/-- `isVolumeDriverAllowed`. -/
def isVolumeDriverAllowed (cfg : Config) (d : String) : Bool :=
  cfg.allowedVolumeDrivers.contains d

/-- JS truthiness of an optional string field: absent or empty is falsy. -/
def jsFalsyStr : Option String → Bool
  | none => true
  | some s => s == ""

/-! ## Registry resolution and credential encoding -/

/-- `getRegistryFromDockerImage`: `image.split("/")` has at least two parts
exactly when the reference contains a slash, and its first part is the text
before the first slash; with fewer than two parts the source returns the
empty string. -/
def getRegistryFromDockerImage (image : String) : String :=
  if image.toList.contains '/' then
    String.mk (image.toList.takeWhile (fun c => !(c == '/')))
  else ""

/-- `getAuthForRegistry`: lookup in the startup overrides map. -/
def getAuthForRegistry (cfg : Config) (registry : String) : Option RegistryAuth :=
  cfg.registryAuthOverrides.lookup registry

/-- Return value of `getAuthForDockerImage`: always a plain object in the
source, hence always truthy. -/
structure AuthLookup where
  auth : Option RegistryAuth
  registry : String
deriving DecidableEq, Repr

/-- JS `!x` applied to the object returned by `getAuthForDockerImage`:
an object is always truthy, so the negation is always false. -/
def AuthLookup.isFalsy (_ : AuthLookup) : Bool := false

/-- `getAuthForDockerImage`: empty registry string falls back to docker.io. -/
def getAuthForDockerImage (cfg : Config) (image : String) : AuthLookup :=
  let r := getRegistryFromDockerImage image
  let registry := if r == "" then "docker.io" else r
  { auth := getAuthForRegistry cfg registry, registry := registry }

/-- One hex digit, lower case, as produced by JSON escapes. -/
def hexDigit (n : Nat) : Char :=
  "0123456789abcdef".toList.getD n '0'

/-- JSON string escaping as performed by `JSON.stringify` on one character. -/
def jsonEscapeChar (c : Char) : String :=
  if c = '"' then "\\\""
  else if c = '\\' then "\\\\"
  else if c.toNat = 8 then "\\b"
  else if c.toNat = 12 then "\\f"
  else if c = '\n' then "\\n"
  else if c = '\r' then "\\r"
  else if c = '\t' then "\\t"
  else if c.toNat < 32 then
    "\\u00" ++ String.mk [hexDigit (c.toNat / 16), hexDigit (c.toNat % 16)]
  else String.mk [c]

/-- A JSON string literal for `s`. -/
def jsonQuote (s : String) : String :=
  "\"" ++ String.join (s.toList.map jsonEscapeChar) ++ "\""

/-- One `"key":"value"` member, omitted (as `JSON.stringify` does) when the
value is undefined. -/
def jsonField (k : String) (v : Option String) : Option String :=
  v.map (fun s => jsonQuote k ++ ":" ++ jsonQuote s)

/-- `JSON.stringify({username, password, serveraddress, email})` for the
credential object the source builds from a stored `RegistryAuth`. -/
def jsonAuthPayload (a : RegistryAuth) : String :=
  let fields := [jsonField "username" a.username,
                 jsonField "password" a.password,
                 jsonField "serveraddress" a.serveraddress,
                 jsonField "email" a.email].filterMap id
  "\x7b" ++ String.intercalate "," fields ++ "\x7d"

/-- UTF-8 bytes of one character. -/
def utf8BytesOfChar (c : Char) : List Nat :=
  let n := c.toNat
  if n < 128 then [n]
  else if n < 2048 then [192 + n / 64, 128 + n % 64]
  else if n < 65536 then [224 + n / 4096, 128 + n / 64 % 64, 128 + n % 64]
  else [240 + n / 262144, 128 + n / 4096 % 64, 128 + n / 64 % 64, 128 + n % 64]

/-- UTF-8 bytes of a string (`Buffer.from(s)`). -/
def stringUtf8 (s : String) : List Nat :=
  s.toList.foldr (fun c acc => utf8BytesOfChar c ++ acc) []

/-- The base64url alphabet. -/
def base64urlAlphabet : List Char :=
  "ABCDEFGHIJKLMNOPQRSTUVWXYZabcdefghijklmnopqrstuvwxyz0123456789-_".toList

/-- Character for one 6-bit group. -/
def b64Char (n : Nat) : Char :=
  base64urlAlphabet.getD n 'A'

/-- base64url encoding of a byte list, unpadded as Node produces it. -/
def base64urlChunks : List Nat → List Char
  | [] => []
  | [b0] => [b64Char (b0 / 4), b64Char (b0 % 4 * 16)]
  | [b0, b1] => [b64Char (b0 / 4), b64Char (b0 % 4 * 16 + b1 / 16), b64Char (b1 % 16 * 4)]
  | b0 :: b1 :: b2 :: rest =>
    b64Char (b0 / 4) :: b64Char (b0 % 4 * 16 + b1 / 16) ::
    b64Char (b1 % 16 * 4 + b2 / 64) :: b64Char (b2 % 64) :: base64urlChunks rest

/-- `Buffer.from(s).toString("base64url")`. -/
def base64url (s : String) : String :=
  String.mk (base64urlChunks (stringUtf8 s))

/-- The header value the source injects for stored credentials. -/
def encodeRegistryAuth (a : RegistryAuth) : String :=
  base64url (jsonAuthPayload a)

/-! ## Header handling -/

/-- `req.get(name)`: case-insensitive header lookup (`name` given in lower
case); Node keeps one entry per name, the first match is the value. -/
def jsGetHeader (hs : Headers) (n : String) : Option String :=
  (hs.find? (fun p => lowerStr p.1 == n)).map Prod.snd

/-- The deletion loop of `stripAuthInfo`: drop every header whose
lower-cased name matches. -/
def deleteHeader (hs : Headers) (n : String) : Headers :=
  hs.filter (fun p => !(lowerStr p.1 == n))

/-- JS truthiness of a header value: absent or empty string is falsy. -/
def jsTruthyHeader : Option String → Bool
  | none => false
  | some s => !(s == "")

/-- One guarded deletion block of `stripAuthInfo`: `if (req.get(n))` then
delete every header whose lower-cased name is `n`. -/
def condDelete (hs : Headers) (n : String) : Headers :=
  if jsTruthyHeader (jsGetHeader hs n) then deleteHeader hs n else hs

/-- `stripAuthInfo`: the guarded deletion for `x-registry-config`, then the
guarded deletion for `x-registry-auth`. -/
def stripAuthInfo (hs : Headers) : Headers :=
  condDelete (condDelete hs "x-registry-config") "x-registry-auth"

/-- The headers actually forwarded to the engine socket by
`proxyRequestToDockerWithStrippedAuthInfo` (it strips, then pipes the
request with `req.headers`). -/
def proxyRequestToDockerWithStrippedAuthInfo (hs : Headers) : Headers :=
  stripAuthInfo hs

/-- `req.headers[n] = v`: Node stores request headers under lower-cased
names, so assignment overwrites any entry for that name. -/
def setHeader (hs : Headers) (n v : String) : Headers :=
  (n, v) :: deleteHeader hs n

/-- Does the header list contain an entry with this (lower-cased) name? -/
def hasHeader (hs : Headers) (n : String) : Bool :=
  hs.any (fun p => lowerStr p.1 == n)

/-! ## Request bodies -/

/-- `VolumeOptions` of a mount. -/
structure VolumeOptions where
  driver : Option String := none
  labels : Option Labels := none
deriving DecidableEq, Repr

/-- One mount of a container spec. -/
structure Mount where
  type : String
  source : String
  volumeOptions : Option VolumeOptions := none
deriving DecidableEq, Repr

/-- A published port of an endpoint spec (only its presence matters). -/
structure Port where
  targetPort : Nat := 0
deriving DecidableEq, Repr

/-- `EndpointSpec` of a service. -/
structure EndpointSpec where
  ports : Option (List Port) := none
deriving DecidableEq, Repr

/-- `ContainerSpec` of a task template; `secrets` and `configs` list the
referenced `SecretName` and `ConfigName` fields. -/
structure ContainerSpec where
  secrets : Option (List String) := none
  configs : Option (List String) := none
  mounts : Option (List Mount) := none
  labels : Option Labels := none
  image : String := ""
deriving DecidableEq, Repr

/-- `TaskTemplate` of a service body; `networks` lists the `Target` fields. -/
structure TaskTemplate where
  containerSpec : Option ContainerSpec := none
  runtime : Option String := none
  networks : Option (List String) := none
deriving DecidableEq, Repr

/-- The body of a service create or update request. -/
structure ServiceSpec where
  name : Option String := none
  taskTemplate : Option TaskTemplate := none
  labels : Option Labels := none
  endpointSpec : Option EndpointSpec := none
deriving DecidableEq, Repr

/-- The body of a network, secret or config create/update request. -/
structure SimpleSpec where
  name : Option String := none
  labels : Option Labels := none
deriving DecidableEq, Repr

/-- `AccessMode` of a cluster volume spec; `secrets` lists the `Secret`
fields. -/
structure AccessMode where
  secrets : Option (List String) := none
deriving DecidableEq, Repr

/-- `ClusterVolumeSpec` of a volume create body. -/
structure ClusterVolumeSpec where
  accessMode : Option AccessMode := none
deriving DecidableEq, Repr

/-- The body of a volume create request. -/
structure VolumeCreateBody where
  name : Option String := none
  driver : Option String := none
  labels : Option Labels := none
  clusterVolumeSpec : Option ClusterVolumeSpec := none
deriving DecidableEq, Repr

/-! ## Handler outcomes -/

/-- What a handler does: answer the client directly without touching the
engine, or issue the engine operation carrying `payload` and answer with
`status` on engine success.  For pure passthrough routes the payload is the
forwarded header list and the status is the engine status (written 200). -/
inductive Outcome (α : Type)
  | response (status : Nat) (body : String)
  | engine (status : Nat) (payload : α)
deriving DecidableEq, Repr

/-- Did the handler issue the engine operation? -/
def Outcome.issued : Outcome α → Bool
  | .response _ _ => false
  | .engine _ _ => true

/-! ## Validation -/

/-- Result of a validation pass that may mutate its input, refuse with a
response, or throw a TypeError (propagated to the route catch as a 500). -/
inductive ValidationResult (α : Type)
  | ok (val : α)
  | reject (status : Nat) (msg : String)
  | thrown
deriving DecidableEq, Repr

/-- `isValidEndpointSpec`: rejects (403) only when ports are declared,
nonempty and port exposure is disabled. -/
def isValidEndpointSpec (cfg : Config) (es : EndpointSpec) : Bool :=
  match es.ports with
  | some (_ :: _) => cfg.allowPortExpose
  | _ => true

/-- `updateSpec.EndpointSpec && !await isValidEndpointSpec(...)`. -/
def endpointSpecBlocked (cfg : Config) : Option EndpointSpec → Bool
  | none => false
  | some es => !(isValidEndpointSpec cfg es)

/-- The network loop of `isValidTaskTemplate`: first offending target. -/
def checkNetworks (cfg : Config) (eng : Engine) : List String → Option (Nat × String)
  | [] => none
  | t :: rest =>
    if cfg.serviceAllowListedNetworks.contains t then
      checkNetworks cfg eng rest
    else if !(isOwnedNetwork cfg eng t false) then
      some (403, "Access denied: Network " ++ t ++ " is not owned.")
    else
      checkNetworks cfg eng rest

/-- The secret loop of `isValidTaskTemplate`. -/
def checkSecretNames (cfg : Config) (eng : Engine) : List String → Option (Nat × String)
  | [] => none
  | s :: rest =>
    if !(isOwnedSecret cfg eng s) then
      some (403, "Access denied: Secret " ++ s ++ " is not owned.")
    else
      checkSecretNames cfg eng rest

/-- The config loop of `isValidTaskTemplate`. -/
def checkConfigNames (cfg : Config) (eng : Engine) : List String → Option (Nat × String)
  | [] => none
  | c :: rest =>
    if !(isOwnedConfig cfg eng c) then
      some (403, "Access denied: Config " ++ c ++ " is not owned.")
    else
      checkConfigNames cfg eng rest

/-- The mount loop of `isValidTaskTemplate`.  For volume or cluster mounts
the source reads `mount.VolumeOptions.Labels` after defaulting only the
local variable (`const volumeOptions = mount.VolumeOptions || {}`), so a
missing `VolumeOptions` object raises a TypeError. -/
def processMounts (cfg : Config) (eng : Engine) : List Mount → ValidationResult (List Mount)
  | [] => .ok []
  | m :: rest =>
    if !(isKnownMountType m.type) then
      .reject 400 ("Mount type " ++ m.type ++ " is not supported.")
    else if !(isMountTypeAllowed cfg m.type) then
      .reject 400 ("Mount type " ++ m.type ++ " is not allowed.")
    else if m.type == "volume" || m.type == "cluster" then
      if doesVolumeExist eng m.source && !(isOwnedVolume cfg eng m.source) then
        .reject 403 ("Access denied: Volume " ++ m.source ++ " is not owned.")
      else
        match m.volumeOptions with
        | none => .thrown
        | some vo =>
          let vo1 : VolumeOptions :=
            { vo with
                labels := some (stampLabel (vo.labels.getD []) tenantLabel cfg.tenantLabelValue) }
          let m1 : Mount := { m with volumeOptions := some vo1 }
          match processMounts cfg eng rest with
          | .ok ms => .ok (m1 :: ms)
          | .reject st msg => .reject st msg
          | .thrown => .thrown
    else
      match processMounts cfg eng rest with
      | .ok ms => .ok (m :: ms)
      | .reject st msg => .reject st msg
      | .thrown => .thrown

/-- `isValidTaskTemplate`, including its in-place mount mutation.  The
`none` alternative below the runtime check is unreachable: when the task
template is absent so is its container spec, and the runtime check already
rejected; the source would throw on `taskTemplate.Networks` there. -/
def isValidTaskTemplate (cfg : Config) (eng : Engine) (ott : Option TaskTemplate) :
    ValidationResult TaskTemplate :=
  let cs := ott.bind TaskTemplate.containerSpec
  let rt := ott.bind TaskTemplate.runtime
  if (!(rt == some "plugin") && !(rt == some "attachment")) && cs.isNone then
    .reject 400 "ContainerSpec is required in TaskTemplate."
  else
    match ott with
    | none => .thrown
    | some tt =>
      match checkNetworks cfg eng (tt.networks.getD []) with
      | some (st, m) => .reject st m
      | none =>
        match tt.containerSpec with
        | none => .ok tt
        | some c =>
          match checkSecretNames cfg eng (c.secrets.getD []) with
          | some (st, m) => .reject st m
          | none =>
            match checkConfigNames cfg eng (c.configs.getD []) with
            | some (st, m) => .reject st m
            | none =>
              match c.mounts with
              | none => .ok tt
              | some ms =>
                match processMounts cfg eng ms with
                | .ok ms1 => .ok { tt with containerSpec := some { c with mounts := some ms1 } }
                | .reject st m => .reject st m
                | .thrown => .thrown

/-- The label stamping `{ ...labels, [tenantLabel]: tenantLabelValue }`
applied to an optional labels object. -/
def stampLabels (cfg : Config) (ol : Option Labels) : Labels :=
  stampLabel (ol.getD []) tenantLabel cfg.tenantLabelValue

/-- The stamping step of the service create/update handlers: tenant label
on the top-level labels and, when a container spec is present, on its
labels too. -/
def stampService (cfg : Config) (spec : ServiceSpec) : ServiceSpec :=
  { spec with
    labels := some (stampLabels cfg spec.labels),
    taskTemplate := spec.taskTemplate.map (fun tt =>
      { tt with containerSpec := tt.containerSpec.map (fun c =>
          { c with labels := some (stampLabels cfg c.labels) }) }) }

/-! ## Route handlers

Each handler is the body of the corresponding `router.<method>` callback in
`setupRoutes`, as a function of the configuration, the engine and the
request.  Responses produced from a caught exception (`res.status(500)`)
carry the body `"error"`; the real body is the JSON `{message}` object,
whose text no claim depends on. -/

/-- The loop over `ClusterVolumeSpec.AccessMode.Secrets` in the volume
create handler. -/
def checkVolumeSecrets (cfg : Config) (eng : Engine) : List String → Option (Nat × String)
  | [] => none
  | s :: rest =>
    if !(isOwnedSecret cfg eng s) then
      some (403, "Access denied: Secret " ++ s ++ " is not owned.")
    else
      checkVolumeSecrets cfg eng rest

/-- `POST /services/create`.  The engine payload is the optional stored
credential object passed to `createService` together with the outgoing
(stamped, mount-mutated) service spec. -/
def servicesCreate (cfg : Config) (eng : Engine) (spec : ServiceSpec) :
    Outcome (Option RegistryAuth × ServiceSpec) :=
  if jsFalsyStr spec.name then
    .response 400 "Service name is required."
  else
    let nm := spec.name.getD ""
    if !(isResourceNameAllowed cfg nm) then
      .response 400 ("Service name " ++ nm ++ " is not allowed.")
    else
      match isValidTaskTemplate cfg eng spec.taskTemplate with
      | .reject st m => .response st m
      | .thrown => .response 500 "error"
      | .ok tt1 =>
        if endpointSpecBlocked cfg spec.endpointSpec then
          .response 403 "Access denied: Exposing ports is not allowed."
        else
          let stamped := stampService cfg { spec with taskTemplate := some tt1 }
          match tt1.containerSpec with
          | none => .response 500 "error"
          | some cs =>
            let la := getAuthForDockerImage cfg cs.image
            if cfg.onlyKnownRegistries && la.isFalsy then
              .response 403 "Access denied: Only known registries are allowed."
            else
              let pr := eng.probe cs.image la.auth
              if !pr.success then
                .response 403 ("Permission check failed, Error: " ++ pr.errorMessage)
              else
                match la.auth with
                | some a =>
                  if !a.anonymous then .engine 201 (some a, stamped)
                  else .engine 201 (none, stamped)
                | none => .engine 201 (none, stamped)

/-- The tail of the service update handler after the optional task-template
block: endpoint check, then the unguarded
`getAuthForDockerImage(taskTemplate.ContainerSpec!.Image)` dereference
(a TypeError, hence 500, when the task template or its container spec is
absent), the dead known-registries guard, the permission probe, and the
engine update call. -/
def servicesUpdateRest (cfg : Config) (eng : Engine) (spec : ServiceSpec) :
    Outcome (Option RegistryAuth × ServiceSpec) :=
  if endpointSpecBlocked cfg spec.endpointSpec then
    .response 403 "Access denied: Exposing ports is not allowed."
  else
    match spec.taskTemplate.bind TaskTemplate.containerSpec with
    | none => .response 500 "error"
    | some cs =>
      let la := getAuthForDockerImage cfg cs.image
      if cfg.onlyKnownRegistries && la.isFalsy then
        .response 403 "Access denied: Only known registries are allowed."
      else
        let pr := eng.probe cs.image la.auth
        if !pr.success then
          .response 403 pr.errorMessage
        else
          match la.auth with
          | some a =>
            if !a.anonymous then .engine 200 (some a, spec)
            else .engine 200 (none, spec)
          | none => .engine 200 (none, spec)

/-- `POST /services/:id/update`.  Label stamping happens only inside the
`if (taskTemplate)` block. -/
def servicesUpdate (cfg : Config) (eng : Engine) (id : String) (spec : ServiceSpec) :
    Outcome (Option RegistryAuth × ServiceSpec) :=
  if isOwnedService cfg eng id then
    match spec.taskTemplate with
    | none => servicesUpdateRest cfg eng spec
    | some tt0 =>
      match isValidTaskTemplate cfg eng (some tt0) with
      | .reject st m => .response st m
      | .thrown => .response 500 "error"
      | .ok tt1 => servicesUpdateRest cfg eng (stampService cfg { spec with taskTemplate := some tt1 })
  else
    .response 403 "Access denied: Service is not owned."

/-- `POST /networks/create`: stamp, then name checks, then the engine call. -/
def networksCreate (cfg : Config) (spec : SimpleSpec) : Outcome SimpleSpec :=
  let stamped : SimpleSpec := { spec with labels := some (stampLabels cfg spec.labels) }
  if jsFalsyStr stamped.name then
    .response 400 "Network name is required."
  else
    let nm := stamped.name.getD ""
    if !(isResourceNameAllowed cfg nm) then
      .response 400 ("Network name " ++ nm ++ " is not allowed.")
    else
      .engine 201 stamped

/-- `POST /secrets/create`. -/
def secretsCreate (cfg : Config) (spec : SimpleSpec) : Outcome SimpleSpec :=
  let stamped : SimpleSpec := { spec with labels := some (stampLabels cfg spec.labels) }
  if jsFalsyStr stamped.name then
    .response 400 "Secret name is required."
  else
    let nm := stamped.name.getD ""
    if !(isResourceNameAllowed cfg nm) then
      .response 400 ("Secret name " ++ nm ++ " is not allowed.")
    else
      .engine 201 stamped

/-- `POST /configs/create`. -/
def configsCreate (cfg : Config) (spec : SimpleSpec) : Outcome SimpleSpec :=
  let stamped : SimpleSpec := { spec with labels := some (stampLabels cfg spec.labels) }
  if jsFalsyStr stamped.name then
    .response 400 "Config name is required."
  else
    let nm := stamped.name.getD ""
    if !(isResourceNameAllowed cfg nm) then
      .response 400 ("Config name " ++ nm ++ " is not allowed.")
    else
      .engine 201 stamped

/-- `POST /volumes/create`: stamp, name and driver checks, then the
cluster-volume secret check.  The source reads
`clusterVolumeSpec.AccessMode` without guarding against an absent
`ClusterVolumeSpec`, a TypeError (500) on every plain volume body. -/
def volumesCreate (cfg : Config) (eng : Engine) (spec : VolumeCreateBody) :
    Outcome VolumeCreateBody :=
  let stamped : VolumeCreateBody := { spec with labels := some (stampLabels cfg spec.labels) }
  if jsFalsyStr stamped.name then
    .response 400 "Volume name is required."
  else
    let nm := stamped.name.getD ""
    if !(isResourceNameAllowed cfg nm) then
      .response 400 ("Volume name " ++ nm ++ " is not allowed.")
    else if jsFalsyStr stamped.driver then
      .response 400 "Volume driver is required."
    else
      let dr := stamped.driver.getD ""
      if !(isVolumeDriverAllowed cfg dr) then
        .response 400 ("Volume driver " ++ dr ++ " is not allowed.")
      else
        match stamped.clusterVolumeSpec with
        | none => .response 500 "error"
        | some cvs =>
          match cvs.accessMode with
          | none => .engine 201 stamped
          | some am =>
            match am.secrets with
            | none => .engine 201 stamped
            | some secs =>
              match checkVolumeSecrets cfg eng secs with
              | some (st, m) => .response st m
              | none => .engine 201 stamped

/-- `POST /secrets/:id/update`: ownership gate then stamped update. -/
def secretsUpdate (cfg : Config) (eng : Engine) (id : String) (spec : SimpleSpec) :
    Outcome SimpleSpec :=
  if isOwnedSecret cfg eng id then
    .engine 200 { spec with labels := some (stampLabels cfg spec.labels) }
  else
    .response 403 "Access denied: Secret is not owned."

/-- `POST /configs/:id/update`. -/
def configsUpdate (cfg : Config) (eng : Engine) (id : String) (spec : SimpleSpec) :
    Outcome SimpleSpec :=
  if isOwnedConfig cfg eng id then
    .engine 200 { spec with labels := some (stampLabels cfg spec.labels) }
  else
    .response 403 "Access denied: Config is not owned."

/-- `GET /services/:id`. -/
def servicesInspect (cfg : Config) (eng : Engine) (id : String) : Outcome String :=
  if isOwnedService cfg eng id then .engine 200 id
  else .response 403 "Access denied: Service is not owned."

/-- `DELETE /services/:id` (denial body is the `message` field of the JSON). -/
def servicesDelete (cfg : Config) (eng : Engine) (id : String) : Outcome String :=
  if isOwnedService cfg eng id then .engine 200 id
  else .response 403 "Access Denied: Service not owned"

/-- `GET /services/:id/logs` (forwards via the stripped passthrough). -/
def servicesLogs (cfg : Config) (eng : Engine) (id : String) : Outcome String :=
  if isOwnedService cfg eng id then .engine 200 id
  else .response 403 "Access Denied: Service not owned"

/-- `GET /tasks/:id`. -/
def tasksInspect (cfg : Config) (eng : Engine) (id : String) : Outcome String :=
  if isTaskOfOwnedService cfg eng id then .engine 200 id
  else .response 403 "Access denied: Task does not belong to an owned service."

/-- `GET /tasks/:id/logs`. -/
def tasksLogs (cfg : Config) (eng : Engine) (id : String) : Outcome String :=
  if isTaskOfOwnedService cfg eng id then .engine 200 id
  else .response 403 "Access Denied: Service not owned"

/-- `DELETE /networks/:id` (allow-listed networks do not count). -/
def networksDelete (cfg : Config) (eng : Engine) (id : String) : Outcome String :=
  if isOwnedNetwork cfg eng id false then .engine 200 id
  else .response 403 "Access denied: Network is not owned."

/-- `GET /networks/:id` (allow-listed networks count for reads). -/
def networksInspect (cfg : Config) (eng : Engine) (id : String) : Outcome String :=
  if isOwnedNetwork cfg eng id true then .engine 200 id
  else .response 403 "Access denied: Network is not owned."

/-- `DELETE /secrets/:id`. -/
def secretsDelete (cfg : Config) (eng : Engine) (id : String) : Outcome String :=
  if isOwnedSecret cfg eng id then .engine 200 id
  else .response 403 "Access denied: Secret is not owned."

/-- `GET /secrets/:id`: the denial is deliberately a 404. -/
def secretsInspect (cfg : Config) (eng : Engine) (id : String) : Outcome String :=
  if isOwnedSecret cfg eng id then .engine 200 id
  else .response 404 "Access denied: Secret is not owned."

/-- `DELETE /configs/:id`. -/
def configsDelete (cfg : Config) (eng : Engine) (id : String) : Outcome String :=
  if isOwnedConfig cfg eng id then .engine 200 id
  else .response 403 "Access denied: Config is not owned."

/-- `GET /configs/:id`: the denial is deliberately a 404. -/
def configsInspect (cfg : Config) (eng : Engine) (id : String) : Outcome String :=
  if isOwnedConfig cfg eng id then .engine 200 id
  else .response 404 "Access denied: Config is not owned."

/-- `DELETE /volumes/:name`. -/
def volumesDelete (cfg : Config) (eng : Engine) (nm : String) : Outcome String :=
  if isOwnedVolume cfg eng nm then .engine 200 nm
  else .response 403 "Access denied: Volume is not owned."

/-- `GET /volumes/:name`. -/
def volumesInspect (cfg : Config) (eng : Engine) (nm : String) : Outcome String :=
  if isOwnedVolume cfg eng nm then .engine 200 nm
  else .response 403 "Access denied: Volume is not owned."

/-- `PUT /volumes/:name`: ownership gate, then a raw dial that passes the
client headers (and no body). -/
def volumesPut (cfg : Config) (eng : Engine) (nm : String) (hs : Headers) : Outcome Headers :=
  if isOwnedVolume cfg eng nm then .engine 200 hs
  else .response 403 "Access denied: Volume is not owned."

/-- `GET /distribution/:name/json`: strip client auth, (dead) registry
guard, permission probe, credential injection, then the stripped
passthrough, whose second `stripAuthInfo` also deletes the header that was
just injected.  The engine payload is the forwarded header list. -/
def distributionJson (cfg : Config) (eng : Engine) (image : String) (hs : Headers) :
    Outcome Headers :=
  let hs1 := stripAuthInfo hs
  let la := getAuthForDockerImage cfg image
  if cfg.onlyKnownRegistries && la.isFalsy then
    .response 403 "Access denied: Only known registries are allowed."
  else
    let pr := eng.probe image la.auth
    if !pr.success then
      .response 403 ("Permission check failed, Error: " ++ pr.errorMessage)
    else
      let hs2 :=
        match la.auth with
        | some a =>
          if !a.anonymous then setHeader hs1 "x-registry-auth" (encodeRegistryAuth a)
          else hs1
        | none => hs1
      .engine 200 (proxyRequestToDockerWithStrippedAuthInfo hs2)

/-! ## Concrete fixtures -/

/-- A proxy for tenant `acme` with all defaults. -/
def cfgAcme : Config := { tenantLabelValue := "acme", namePrefix := "acme" }

/-- Tenant `acme` with `ONLY_KNOWN_REGISTRIES` enabled and an empty
credential store. -/
def cfgOnlyKnown : Config :=
  { tenantLabelValue := "acme", namePrefix := "acme", onlyKnownRegistries := true }

/-- Tenant `acme` with stored credentials for one private registry. -/
def cfgRegistryCreds : Config :=
  { tenantLabelValue := "acme", namePrefix := "acme",
    registryAuthOverrides := [("registry.example.com",
      { username := some "user", password := some "pass",
        serveraddress := some "registry.example.com" })] }

/-- An engine with no resources whose permission probe succeeds. -/
def engEmpty : Engine := {}

/-- An engine holding one service owned by tenant `acme`. -/
def engOwnedSvc : Engine :=
  { services := [("svc1", { specLabels := some [(tenantLabel, "acme")] })] }

/-- A minimal valid container spec pulling `nginx`. -/
def csNginx : ContainerSpec := { image := "nginx" }

/-- A service create body with a valid name and the `nginx` container spec. -/
def specNginx : ServiceSpec :=
  { name := some "acme_web", taskTemplate := some { containerSpec := some csNginx } }

/-- The `nginx` container spec with one volume mount that carries no
`VolumeOptions` object. -/
def csMountNoOptions : ContainerSpec :=
  { image := "nginx", mounts := some [{ type := "volume", source := "acme_data" }] }

/-- A service create body whose only mount has no `VolumeOptions`. -/
def specMountNoOptions : ServiceSpec :=
  { name := some "acme_web", taskTemplate := some { containerSpec := some csMountNoOptions } }

/-! ## Shared lemmas -/

/-- Looking up the stamped key always yields the configured value. -/
theorem ownLabelB_stampLabels (cfg : Config) (ol : Option Labels) :
    ownLabelB cfg (some (stampLabels cfg ol)) = true := by
  simp [ownLabelB, stampLabels, stampLabel, List.lookup]

/-! ## Claim C1 -/

/-- Claim C1 (counterexample): with tenant value and name prefix `acme`,
a volume named `foo` that carries the tenant label is judged owned by
`isVolumeOwned` even though its name does not start with the prefix, so
the ownership predicates are not the claimed conjunction of label match
and name-prefix match. -/
theorem c1_prefix_not_consulted_counterexample :
    isVolumeOwned cfgAcme { name := "foo", labels := some [(tenantLabel, "acme")] } = true ∧
    strStartsWith "foo" cfgAcme.namePrefix = false := by
  constructor <;> decide

/-- Claim C1 (amended): every ownership predicate returns true iff the
resource labels map the tenant label key to the configured tenant value —
for networks, when the allow-list flag is set, an allow-listed name also
counts — and the resource name or configured name prefix is never
consulted; each async wrapper returns true iff the engine inspect succeeds
and the predicate holds on the result (for volumes, with the redundant
extra check that labels are present). -/
theorem c1_ownership_is_label_equality (cfg : Config) (s : Service) (n : Network)
    (sec : Secret) (c : ConfigRes) (v : Volume) (inc : Bool) (eng : Engine) (id : String) :
    (isServiceOwned cfg s = ownLabelB cfg s.specLabels) ∧
    (isSecretOwned cfg sec = ownLabelB cfg sec.specLabels) ∧
    (isConfigOwned cfg c = ownLabelB cfg c.specLabels) ∧
    (isVolumeOwned cfg v = ownLabelB cfg v.labels) ∧
    (isNetworkOwned cfg n inc =
      ((inc && cfg.serviceAllowListedNetworks.contains n.name) || ownLabelB cfg n.labels)) ∧
    (isOwnedService cfg eng id =
      ((eng.services.lookup id).map (isServiceOwned cfg)).getD false) ∧
    (isOwnedNetwork cfg eng id inc =
      ((eng.networks.lookup id).map (fun w => isNetworkOwned cfg w inc)).getD false) ∧
    (isOwnedSecret cfg eng id =
      ((eng.secrets.lookup id).map (isSecretOwned cfg)).getD false) ∧
    (isOwnedConfig cfg eng id =
      ((eng.configs.lookup id).map (isConfigOwned cfg)).getD false) ∧
    (isOwnedVolume cfg eng id =
      ((eng.volumes.lookup id).map (isVolumeOwned cfg)).getD false) := by
  refine ⟨rfl, rfl, rfl, rfl, ?_, ?_, ?_, ?_, ?_, ?_⟩
  · unfold isNetworkOwned ownLabelB
    cases h : (inc && cfg.serviceAllowListedNetworks.contains n.name) <;> simp [h]
  · unfold isOwnedService
    cases h : eng.services.lookup id <;> simp [h]
  · unfold isOwnedNetwork
    cases h : eng.networks.lookup id <;> simp [h]
  · unfold isOwnedSecret
    cases h : eng.secrets.lookup id <;> simp [h]
  · unfold isOwnedConfig
    cases h : eng.configs.lookup id <;> simp [h]
  · unfold isOwnedVolume
    cases h : eng.volumes.lookup id with
    | none => simp [h]
    | some w =>
      cases hl : w.labels <;> simp [h, hl, isVolumeOwned]

/-! ## Claim C2 -/

/-- Claim C2 (code bug): with `ONLY_KNOWN_REGISTRIES` enabled and an empty
credential store, a service create for `nginx` and a distribution lookup
for `nginx` are both forwarded to the engine instead of being refused with
403: the guard tests the truthiness of the object returned by
`getAuthForDockerImage`, which is never falsy. -/
theorem c2_only_known_registries_guard_is_dead :
    (servicesCreate cfgOnlyKnown engEmpty specNginx).issued = true ∧
    (distributionJson cfgOnlyKnown engEmpty "nginx" []).issued = true := by
  constructor <;> decide

/-! ## Claim C5 -/

/-- Claim C5 (code bug): a service create whose volume mount has no
`VolumeOptions` object and whose source volume does not exist is answered
500, not accepted with a stamped mount: the stamping line assigns through
`mount.VolumeOptions` without the defaulting applied to the local
variable, a TypeError. -/
theorem c5_mount_without_volumeoptions_500 :
    servicesCreate cfgAcme engEmpty specMountNoOptions = .response 500 "error" := by
  decide

/-! ## Claim C6 -/

/-- Claim C6 (code bug): a volume create with a valid name and driver but
no `ClusterVolumeSpec` is answered 500 instead of being forwarded and
answered 201: the handler reads `clusterVolumeSpec.AccessMode` without
guarding against an absent cluster-volume spec. -/
theorem c6_plain_volume_create_500 :
    volumesCreate cfgAcme engEmpty { name := some "acme_vol", driver := some "local" } =
      .response 500 "error" := by
  decide

/-! ## Claim C7 -/

/-- Claim C7 (code bug): for an image on a registry with stored
non-anonymous credentials and a successful probe, the forwarded request
carries no `x-registry-auth` header at all — the handler injects the
encoded credentials and then forwards through
`proxyRequestToDockerWithStrippedAuthInfo`, whose `stripAuthInfo` deletes
the just-injected header. -/
theorem c7_injected_credentials_stripped_before_forward :
    distributionJson cfgRegistryCreds engEmpty "registry.example.com/app:1"
      [("X-Registry-Auth", "Zm9v")] = .engine 200 [] := by
  decide

/-! ## Claim C10 -/

/-- Claim C10 (counterexample): an update of an owned service whose body
has no task template but declares a published port while port exposure is
disabled is answered 403 by the endpoint-spec check, not 500. -/
theorem c10_endpoint_check_precedes_counterexample :
    servicesUpdate cfgAcme engOwnedSvc "svc1"
      { endpointSpec := some { ports := some [{}] } } =
      .response 403 "Access denied: Exposing ports is not allowed." := by
  decide

/-- Claim C10 (amended): an update of an owned service whose body has no
task template and whose endpoint spec (if any) passes the port check is
answered 500 and never reaches the engine: the registry-credential lookup
dereferences the absent task template unconditionally after the guarded
validation block. -/
theorem c10_update_without_tasktemplate_500 (cfg : Config) (eng : Engine)
    (id : String) (u : ServiceSpec)
    (h1 : isOwnedService cfg eng id = true)
    (h2 : u.taskTemplate = none)
    (h3 : endpointSpecBlocked cfg u.endpointSpec = false) :
    servicesUpdate cfg eng id u = .response 500 "error" := by
  unfold servicesUpdate servicesUpdateRest
  simp [h1, h2, h3]

/-- Witness for the amended claim C10 at a concrete owned service and an
empty update body. -/
theorem c10_update_without_tasktemplate_500_witness :
    servicesUpdate cfgAcme engOwnedSvc "svc1" {} = .response 500 "error" :=
  c10_update_without_tasktemplate_500 cfgAcme engOwnedSvc "svc1" {}
    (by decide) rfl rfl

/-! ## Claim C3 -/

/-- For a service create/update outcome: if the engine call was issued, the
outgoing spec carries the tenant label at the top level and in the
container-spec labels. -/
def serviceOutcomeStamped (cfg : Config) : Outcome (Option RegistryAuth × ServiceSpec) → Bool
  | .response _ _ => true
  | .engine _ p =>
    ownLabelB cfg p.2.labels &&
    (match p.2.taskTemplate with
     | some tt =>
       match tt.containerSpec with
       | some c => ownLabelB cfg c.labels
       | none => false
     | none => false)

/-- For a network/secret/config outcome: if the engine call was issued, the
outgoing spec carries the tenant label. -/
def simpleOutcomeStamped (cfg : Config) : Outcome SimpleSpec → Bool
  | .response _ _ => true
  | .engine _ sp => ownLabelB cfg sp.labels

/-- For a volume create outcome: if the engine call was issued, the
outgoing body carries the tenant label. -/
def volumeOutcomeStamped (cfg : Config) : Outcome VolumeCreateBody → Bool
  | .response _ _ => true
  | .engine _ sp => ownLabelB cfg sp.labels

/-- The service create handler stamps every admitted spec. -/
theorem servicesCreate_stamped (cfg : Config) (eng : Engine) (s : ServiceSpec) :
    serviceOutcomeStamped cfg (servicesCreate cfg eng s) = true := by
  cases ho : servicesCreate cfg eng s with
  | response st b => rfl
  | engine st p =>
    unfold servicesCreate at ho
    dsimp only at ho
    repeat' split at ho
    all_goals cases ho
    all_goals simp_all [serviceOutcomeStamped, stampService, ownLabelB_stampLabels]

/-- The tail of the service update handler stamps every admitted spec when
handed an already-stamped one. -/
theorem servicesUpdateRest_stamped (cfg : Config) (eng : Engine) (sp : ServiceSpec) :
    serviceOutcomeStamped cfg (servicesUpdateRest cfg eng (stampService cfg sp)) = true := by
  cases ho : servicesUpdateRest cfg eng (stampService cfg sp) with
  | response st b => rfl
  | engine st p =>
    unfold servicesUpdateRest at ho
    dsimp only at ho
    repeat' split at ho
    all_goals cases ho
    all_goals
      cases htt : sp.taskTemplate with
      | none => simp_all [stampService, serviceOutcomeStamped, ownLabelB_stampLabels]
      | some tt0 =>
        cases hcs : tt0.containerSpec <;>
          simp_all [stampService, serviceOutcomeStamped, ownLabelB_stampLabels] <;>
          (subst_vars; simp [ownLabelB_stampLabels])

/-- An update whose body has no task template never reaches the engine. -/
theorem servicesUpdateRest_no_tt (cfg : Config) (eng : Engine) (sp : ServiceSpec)
    (h : sp.taskTemplate = none) :
    serviceOutcomeStamped cfg (servicesUpdateRest cfg eng sp) = true := by
  cases ho : servicesUpdateRest cfg eng sp with
  | response st b => rfl
  | engine st p =>
    unfold servicesUpdateRest at ho
    dsimp only at ho
    repeat' split at ho
    all_goals cases ho
    all_goals simp_all

/-- The service update handler stamps every admitted spec. -/
theorem servicesUpdate_stamped (cfg : Config) (eng : Engine) (id : String) (u : ServiceSpec) :
    serviceOutcomeStamped cfg (servicesUpdate cfg eng id u) = true := by
  unfold servicesUpdate
  split
  · split
    · exact servicesUpdateRest_no_tt cfg eng u (by assumption)
    · split
      · rfl
      · rfl
      · exact servicesUpdateRest_stamped cfg eng _
  · rfl

/-- The network create handler stamps every admitted spec. -/
theorem networksCreate_stamped (cfg : Config) (n : SimpleSpec) :
    simpleOutcomeStamped cfg (networksCreate cfg n) = true := by
  cases ho : networksCreate cfg n with
  | response st b => rfl
  | engine st p =>
    unfold networksCreate at ho
    dsimp only at ho
    repeat' split at ho
    all_goals cases ho
    all_goals simp [simpleOutcomeStamped, ownLabelB_stampLabels]

/-- The secret create handler stamps every admitted spec. -/
theorem secretsCreate_stamped (cfg : Config) (n : SimpleSpec) :
    simpleOutcomeStamped cfg (secretsCreate cfg n) = true := by
  cases ho : secretsCreate cfg n with
  | response st b => rfl
  | engine st p =>
    unfold secretsCreate at ho
    dsimp only at ho
    repeat' split at ho
    all_goals cases ho
    all_goals simp [simpleOutcomeStamped, ownLabelB_stampLabels]

/-- The config create handler stamps every admitted spec. -/
theorem configsCreate_stamped (cfg : Config) (n : SimpleSpec) :
    simpleOutcomeStamped cfg (configsCreate cfg n) = true := by
  cases ho : configsCreate cfg n with
  | response st b => rfl
  | engine st p =>
    unfold configsCreate at ho
    dsimp only at ho
    repeat' split at ho
    all_goals cases ho
    all_goals simp [simpleOutcomeStamped, ownLabelB_stampLabels]

/-- The volume create handler stamps every admitted body. -/
theorem volumesCreate_stamped (cfg : Config) (eng : Engine) (v : VolumeCreateBody) :
    volumeOutcomeStamped cfg (volumesCreate cfg eng v) = true := by
  cases ho : volumesCreate cfg eng v with
  | response st b => rfl
  | engine st p =>
    unfold volumesCreate at ho
    dsimp only at ho
    repeat' split at ho
    all_goals cases ho
    all_goals simp [volumeOutcomeStamped, ownLabelB_stampLabels]

/-- The secret update handler stamps every admitted spec. -/
theorem secretsUpdate_stamped (cfg : Config) (eng : Engine) (id : String) (n : SimpleSpec) :
    simpleOutcomeStamped cfg (secretsUpdate cfg eng id n) = true := by
  unfold secretsUpdate
  split <;> simp [simpleOutcomeStamped, ownLabelB_stampLabels]

/-- The config update handler stamps every admitted spec. -/
theorem configsUpdate_stamped (cfg : Config) (eng : Engine) (id : String) (n : SimpleSpec) :
    simpleOutcomeStamped cfg (configsUpdate cfg eng id n) = true := by
  unfold configsUpdate
  split <;> simp [simpleOutcomeStamped, ownLabelB_stampLabels]

/-! ## Claim C8 -/

/-- The name condition of every create route: present, nonempty and
starting with the configured prefix. -/
def createNameOk (cfg : Config) (name : Option String) : Bool :=
  !(jsFalsyStr name) && strStartsWith (name.getD "") cfg.namePrefix

/-- Is the outcome a 400 response? -/
def Outcome.is400 : Outcome α → Bool
  | .response 400 _ => true
  | _ => false

/-- The service create route rejects bad names with 400 and forwards only
prefixed names. -/
theorem servicesCreate_name_gate (cfg : Config) (eng : Engine) (s : ServiceSpec) :
    (createNameOk cfg s.name = false → (servicesCreate cfg eng s).is400 = true) ∧
    (∀ st p, servicesCreate cfg eng s = .engine st p → createNameOk cfg p.2.name = true) := by
  constructor
  · intro h
    unfold servicesCreate
    by_cases h1 : jsFalsyStr s.name = true
    · simp [h1, Outcome.is400]
    · have h2 : strStartsWith (s.name.getD "") cfg.namePrefix = false := by
        simp [createNameOk, h1] at h
        simpa using h
      simp [h1, isResourceNameAllowed, h2, Outcome.is400]
  · intro st p hp
    unfold servicesCreate at hp
    dsimp only at hp
    repeat' split at hp
    all_goals cases hp
    all_goals simp_all [createNameOk, stampService, isResourceNameAllowed]

/-- The network create route rejects bad names with 400 and forwards only
prefixed names. -/
theorem networksCreate_name_gate (cfg : Config) (n : SimpleSpec) :
    (createNameOk cfg n.name = false → (networksCreate cfg n).is400 = true) ∧
    (∀ st p, networksCreate cfg n = .engine st p → createNameOk cfg p.name = true) := by
  constructor
  · intro h
    unfold networksCreate
    by_cases h1 : jsFalsyStr n.name = true
    · simp [h1, Outcome.is400]
    · have h2 : strStartsWith (n.name.getD "") cfg.namePrefix = false := by
        simp [createNameOk, h1] at h
        simpa using h
      simp [h1, isResourceNameAllowed, h2, Outcome.is400]
  · intro st p hp
    unfold networksCreate at hp
    dsimp only at hp
    repeat' split at hp
    all_goals cases hp
    all_goals simp_all [createNameOk, isResourceNameAllowed]

/-- The secret create route rejects bad names with 400 and forwards only
prefixed names. -/
theorem secretsCreate_name_gate (cfg : Config) (n : SimpleSpec) :
    (createNameOk cfg n.name = false → (secretsCreate cfg n).is400 = true) ∧
    (∀ st p, secretsCreate cfg n = .engine st p → createNameOk cfg p.name = true) := by
  constructor
  · intro h
    unfold secretsCreate
    by_cases h1 : jsFalsyStr n.name = true
    · simp [h1, Outcome.is400]
    · have h2 : strStartsWith (n.name.getD "") cfg.namePrefix = false := by
        simp [createNameOk, h1] at h
        simpa using h
      simp [h1, isResourceNameAllowed, h2, Outcome.is400]
  · intro st p hp
    unfold secretsCreate at hp
    dsimp only at hp
    repeat' split at hp
    all_goals cases hp
    all_goals simp_all [createNameOk, isResourceNameAllowed]

/-- The config create route rejects bad names with 400 and forwards only
prefixed names. -/
theorem configsCreate_name_gate (cfg : Config) (n : SimpleSpec) :
    (createNameOk cfg n.name = false → (configsCreate cfg n).is400 = true) ∧
    (∀ st p, configsCreate cfg n = .engine st p → createNameOk cfg p.name = true) := by
  constructor
  · intro h
    unfold configsCreate
    by_cases h1 : jsFalsyStr n.name = true
    · simp [h1, Outcome.is400]
    · have h2 : strStartsWith (n.name.getD "") cfg.namePrefix = false := by
        simp [createNameOk, h1] at h
        simpa using h
      simp [h1, isResourceNameAllowed, h2, Outcome.is400]
  · intro st p hp
    unfold configsCreate at hp
    dsimp only at hp
    repeat' split at hp
    all_goals cases hp
    all_goals simp_all [createNameOk, isResourceNameAllowed]

/-- The volume create route rejects bad names with 400 and forwards only
prefixed names. -/
theorem volumesCreate_name_gate (cfg : Config) (eng : Engine) (v : VolumeCreateBody) :
    (createNameOk cfg v.name = false → (volumesCreate cfg eng v).is400 = true) ∧
    (∀ st p, volumesCreate cfg eng v = .engine st p → createNameOk cfg p.name = true) := by
  constructor
  · intro h
    unfold volumesCreate
    by_cases h1 : jsFalsyStr v.name = true
    · simp [h1, Outcome.is400]
    · have h2 : strStartsWith (v.name.getD "") cfg.namePrefix = false := by
        simp [createNameOk, h1] at h
        simpa using h
      simp [h1, isResourceNameAllowed, h2, Outcome.is400]
  · intro st p hp
    unfold volumesCreate at hp
    dsimp only at hp
    repeat' split at hp
    all_goals cases hp
    all_goals simp_all [createNameOk, isResourceNameAllowed]

/-- Claim C8 (confirmed): every create route answers 400 without contacting
the engine when the supplied name is missing, empty or lacks the configured
prefix, and every name that reaches the engine through a create is nonempty
and starts with the prefix. -/
theorem c8_create_name_prefix_enforced (cfg : Config) (eng : Engine)
    (s : ServiceSpec) (n sc cf : SimpleSpec) (v : VolumeCreateBody) :
    ((createNameOk cfg s.name = false → (servicesCreate cfg eng s).is400 = true) ∧
     (∀ st p, servicesCreate cfg eng s = .engine st p → createNameOk cfg p.2.name = true)) ∧
    ((createNameOk cfg n.name = false → (networksCreate cfg n).is400 = true) ∧
     (∀ st p, networksCreate cfg n = .engine st p → createNameOk cfg p.name = true)) ∧
    ((createNameOk cfg sc.name = false → (secretsCreate cfg sc).is400 = true) ∧
     (∀ st p, secretsCreate cfg sc = .engine st p → createNameOk cfg p.name = true)) ∧
    ((createNameOk cfg cf.name = false → (configsCreate cfg cf).is400 = true) ∧
     (∀ st p, configsCreate cfg cf = .engine st p → createNameOk cfg p.name = true)) ∧
    ((createNameOk cfg v.name = false → (volumesCreate cfg eng v).is400 = true) ∧
     (∀ st p, volumesCreate cfg eng v = .engine st p → createNameOk cfg p.name = true)) :=
  ⟨servicesCreate_name_gate cfg eng s, networksCreate_name_gate cfg n,
   secretsCreate_name_gate cfg sc, configsCreate_name_gate cfg cf,
   volumesCreate_name_gate cfg eng v⟩

/-- Witness for claim C8: the unprefixed name `foo` is rejected with 400 on
every create route, and a service create that goes through carries the
prefixed name. -/
theorem c8_create_name_prefix_enforced_witness :
    (servicesCreate cfgAcme engEmpty { name := some "foo" }).is400 = true ∧
    (networksCreate cfgAcme { name := some "foo" }).is400 = true ∧
    (secretsCreate cfgAcme { name := some "foo" }).is400 = true ∧
    (configsCreate cfgAcme { name := some "foo" }).is400 = true ∧
    (volumesCreate cfgAcme engEmpty { name := some "foo" }).is400 = true ∧
    createNameOk cfgAcme (stampService cfgAcme specNginx).name = true := by
  have h := c8_create_name_prefix_enforced cfgAcme engEmpty
    { name := some "foo" } { name := some "foo" } { name := some "foo" }
    { name := some "foo" } { name := some "foo" }
  have h2 := c8_create_name_prefix_enforced cfgAcme engEmpty specNginx
    { name := some "foo" } { name := some "foo" } { name := some "foo" } { name := some "foo" }
  refine ⟨h.1.1 (by decide), h.2.1.1 (by decide), h.2.2.1.1 (by decide),
          h.2.2.2.1.1 (by decide), h.2.2.2.2.1 (by decide), ?_⟩
  exact h2.1.2 201 (none, stampService cfgAcme specNginx) (by decide)

/-- Claim C3 (confirmed): every create or update request admitted to the
engine carries `labels[tenantLabel] = tenantLabelValue` on its top-level
labels — for services also on the container-spec labels — regardless of any
client-supplied value for that key, because the stamp is merged last.  The
volume update route forwards no spec at all and is therefore not listed. -/
theorem c3_tenant_label_always_stamped (cfg : Config) (eng : Engine)
    (s u : ServiceSpec) (id : String) (n sc cf su cu : SimpleSpec) (v : VolumeCreateBody) :
    serviceOutcomeStamped cfg (servicesCreate cfg eng s) = true ∧
    serviceOutcomeStamped cfg (servicesUpdate cfg eng id u) = true ∧
    simpleOutcomeStamped cfg (networksCreate cfg n) = true ∧
    simpleOutcomeStamped cfg (secretsCreate cfg sc) = true ∧
    simpleOutcomeStamped cfg (configsCreate cfg cf) = true ∧
    volumeOutcomeStamped cfg (volumesCreate cfg eng v) = true ∧
    simpleOutcomeStamped cfg (secretsUpdate cfg eng id su) = true ∧
    simpleOutcomeStamped cfg (configsUpdate cfg eng id cu) = true :=
  ⟨servicesCreate_stamped cfg eng s, servicesUpdate_stamped cfg eng id u,
   networksCreate_stamped cfg n, secretsCreate_stamped cfg sc,
   configsCreate_stamped cfg cf, volumesCreate_stamped cfg eng v,
   secretsUpdate_stamped cfg eng id su, configsUpdate_stamped cfg eng id cu⟩

/-! ## Claim C9 -/

/-- Claim C9 (confirmed): when the ownership oracle denies the addressed
resource, every non-create per-resource route answers without issuing the
engine operation — 403 in every case except secret inspect and config
inspect, which answer 404 with the access-denied body. -/
theorem c9_not_owned_denials (cfg : Config) (eng : Engine) (id : String)
    (u : ServiceSpec) (su cu : SimpleSpec) (hdrs : Headers)
    (hsvc : isOwnedService cfg eng id = false)
    (htsk : isTaskOfOwnedService cfg eng id = false)
    (hnetd : isOwnedNetwork cfg eng id false = false)
    (hneti : isOwnedNetwork cfg eng id true = false)
    (hsec : isOwnedSecret cfg eng id = false)
    (hcfr : isOwnedConfig cfg eng id = false)
    (hvol : isOwnedVolume cfg eng id = false) :
    servicesUpdate cfg eng id u = .response 403 "Access denied: Service is not owned." ∧
    servicesInspect cfg eng id = .response 403 "Access denied: Service is not owned." ∧
    servicesDelete cfg eng id = .response 403 "Access Denied: Service not owned" ∧
    servicesLogs cfg eng id = .response 403 "Access Denied: Service not owned" ∧
    tasksInspect cfg eng id =
      .response 403 "Access denied: Task does not belong to an owned service." ∧
    tasksLogs cfg eng id = .response 403 "Access Denied: Service not owned" ∧
    networksDelete cfg eng id = .response 403 "Access denied: Network is not owned." ∧
    networksInspect cfg eng id = .response 403 "Access denied: Network is not owned." ∧
    secretsDelete cfg eng id = .response 403 "Access denied: Secret is not owned." ∧
    secretsInspect cfg eng id = .response 404 "Access denied: Secret is not owned." ∧
    secretsUpdate cfg eng id su = .response 403 "Access denied: Secret is not owned." ∧
    configsDelete cfg eng id = .response 403 "Access denied: Config is not owned." ∧
    configsInspect cfg eng id = .response 404 "Access denied: Config is not owned." ∧
    configsUpdate cfg eng id cu = .response 403 "Access denied: Config is not owned." ∧
    volumesDelete cfg eng id = .response 403 "Access denied: Volume is not owned." ∧
    volumesInspect cfg eng id = .response 403 "Access denied: Volume is not owned." ∧
    volumesPut cfg eng id hdrs = .response 403 "Access denied: Volume is not owned." := by
  refine ⟨?_, ?_, ?_, ?_, ?_, ?_, ?_, ?_, ?_, ?_, ?_, ?_, ?_, ?_, ?_, ?_, ?_⟩ <;>
    simp [servicesUpdate, servicesInspect, servicesDelete, servicesLogs,
      tasksInspect, tasksLogs, networksDelete, networksInspect,
      secretsDelete, secretsInspect, secretsUpdate, configsDelete,
      configsInspect, configsUpdate, volumesDelete, volumesInspect, volumesPut,
      hsvc, htsk, hnetd, hneti, hsec, hcfr, hvol]

/-- Witness for claim C9 on an empty engine, where every oracle denies. -/
theorem c9_not_owned_denials_witness :
    servicesUpdate cfgAcme engEmpty "x" {} =
      .response 403 "Access denied: Service is not owned." ∧
    servicesInspect cfgAcme engEmpty "x" =
      .response 403 "Access denied: Service is not owned." ∧
    servicesDelete cfgAcme engEmpty "x" = .response 403 "Access Denied: Service not owned" ∧
    servicesLogs cfgAcme engEmpty "x" = .response 403 "Access Denied: Service not owned" ∧
    tasksInspect cfgAcme engEmpty "x" =
      .response 403 "Access denied: Task does not belong to an owned service." ∧
    tasksLogs cfgAcme engEmpty "x" = .response 403 "Access Denied: Service not owned" ∧
    networksDelete cfgAcme engEmpty "x" =
      .response 403 "Access denied: Network is not owned." ∧
    networksInspect cfgAcme engEmpty "x" =
      .response 403 "Access denied: Network is not owned." ∧
    secretsDelete cfgAcme engEmpty "x" = .response 403 "Access denied: Secret is not owned." ∧
    secretsInspect cfgAcme engEmpty "x" = .response 404 "Access denied: Secret is not owned." ∧
    secretsUpdate cfgAcme engEmpty "x" {} =
      .response 403 "Access denied: Secret is not owned." ∧
    configsDelete cfgAcme engEmpty "x" = .response 403 "Access denied: Config is not owned." ∧
    configsInspect cfgAcme engEmpty "x" = .response 404 "Access denied: Config is not owned." ∧
    configsUpdate cfgAcme engEmpty "x" {} =
      .response 403 "Access denied: Config is not owned." ∧
    volumesDelete cfgAcme engEmpty "x" = .response 403 "Access denied: Volume is not owned." ∧
    volumesInspect cfgAcme engEmpty "x" =
      .response 403 "Access denied: Volume is not owned." ∧
    volumesPut cfgAcme engEmpty "x" [] = .response 403 "Access denied: Volume is not owned." :=
  c9_not_owned_denials cfgAcme engEmpty "x" {} {} {} []
    rfl rfl rfl rfl rfl rfl rfl

/-! ## Claim C4 -/

/-- Deleting a header name leaves no entry with that name. -/
theorem hasHeader_deleteHeader (hs : Headers) (n : String) :
    hasHeader (deleteHeader hs n) n = false := by
  simp only [hasHeader, deleteHeader, List.any_eq_false]
  intro x hx
  have hmem := List.mem_filter.mp hx
  simpa using hmem.2

/-- Deleting any header name cannot introduce entries of another name. -/
theorem hasHeader_deleteHeader_of_false (hs : Headers) (n m : String)
    (h : hasHeader hs n = false) : hasHeader (deleteHeader hs m) n = false := by
  simp only [hasHeader, List.any_eq_false] at h ⊢
  intro x hx
  exact h x (List.mem_filter.mp hx).1

/-- If no entry matches a name, the lookup of that name yields nothing. -/
theorem hasHeader_false_of_jsGet_none (hs : Headers) (n : String)
    (h : jsGetHeader hs n = none) : hasHeader hs n = false := by
  simp only [jsGetHeader, Option.map_eq_none', List.find?_eq_none] at h
  simp only [hasHeader, List.any_eq_false]
  intro x hx
  simpa using h x hx

/-- Deleting one header name leaves the lookup of a different name intact. -/
theorem jsGetHeader_deleteHeader (hs : Headers) (n m : String) (hnm : n ≠ m) :
    jsGetHeader (deleteHeader hs m) n = jsGetHeader hs n := by
  induction hs with
  | nil => rfl
  | cons p t ih =>
    by_cases hm : lowerStr p.1 = m
    · have hdrop : deleteHeader (p :: t) m = deleteHeader t m := by
        simp [deleteHeader, List.filter_cons, hm]
      have hn : (lowerStr p.1 == n) = false := by
        rw [hm]
        exact beq_eq_false_iff_ne.mpr (Ne.symm hnm)
      rw [hdrop, ih]
      unfold jsGetHeader
      rw [List.find?_cons_of_neg _ (by simp [hn])]
    · have hkeep : deleteHeader (p :: t) m = p :: deleteHeader t m := by
        simp [deleteHeader, List.filter_cons, hm]
      by_cases hn : lowerStr p.1 = n
      · unfold jsGetHeader
        rw [hkeep]
        rw [List.find?_cons_of_pos _ (by simp [hn]),
            List.find?_cons_of_pos _ (by simp [hn])]
      · unfold jsGetHeader at *
        rw [hkeep]
        rw [List.find?_cons_of_neg _ (by simp [hn]),
            List.find?_cons_of_neg _ (by simp [hn])]
        exact ih

/-- The guarded deletion leaves no entry of its own name behind, except
when the first matching entry has the empty value. -/
theorem condDelete_clears (hs : Headers) (n : String)
    (h : jsGetHeader hs n ≠ some "") : hasHeader (condDelete hs n) n = false := by
  unfold condDelete
  rcases hg : jsGetHeader hs n with _ | v
  · simpa [jsTruthyHeader, hg] using hasHeader_false_of_jsGet_none hs n hg
  · have hv : (v == "") = false := by
      cases hvv : (v == "") with
      | false => rfl
      | true =>
        rw [show v = "" from by simpa using hvv] at hg
        exact absurd hg h
    simpa [jsTruthyHeader, hg, hv] using hasHeader_deleteHeader hs n

/-- The guarded deletion of one name leaves the lookup of another intact. -/
theorem condDelete_other (hs : Headers) (n m : String) (hnm : n ≠ m) :
    jsGetHeader (condDelete hs m) n = jsGetHeader hs n := by
  unfold condDelete
  split
  · exact jsGetHeader_deleteHeader hs n m hnm
  · rfl

/-- The guarded deletion cannot introduce entries of another name. -/
theorem condDelete_preserves_false (hs : Headers) (n m : String)
    (h : hasHeader hs n = false) : hasHeader (condDelete hs m) n = false := by
  unfold condDelete
  split
  · exact hasHeader_deleteHeader_of_false hs n m h
  · exact h

/-- Claim C4 (counterexample): a client-supplied `x-registry-auth` header
with an empty value survives the stripped passthrough, because the strip is
guarded by the truthiness of `req.get` and the empty string is falsy. -/
theorem c4_empty_value_auth_header_survives :
    hasHeader (proxyRequestToDockerWithStrippedAuthInfo [("x-registry-auth", "")])
      "x-registry-auth" = true := by
  decide

/-- Claim C4 (amended): every request forwarded through the stripped
passthrough carries no `x-registry-auth` and no `x-registry-config` header
under any letter casing, provided the client did not send the header with
an empty value (an empty-valued header is falsy to the guard and is left in
place); nothing is injected on this path. -/
theorem c4_forwarded_headers_stripped (hs : Headers)
    (ha : jsGetHeader hs "x-registry-auth" ≠ some "")
    (hc : jsGetHeader hs "x-registry-config" ≠ some "") :
    hasHeader (proxyRequestToDockerWithStrippedAuthInfo hs) "x-registry-auth" = false ∧
    hasHeader (proxyRequestToDockerWithStrippedAuthInfo hs) "x-registry-config" = false := by
  unfold proxyRequestToDockerWithStrippedAuthInfo stripAuthInfo
  constructor
  · refine condDelete_clears _ _ ?_
    rw [condDelete_other _ _ _ (by decide)]
    exact ha
  · exact condDelete_preserves_false _ _ _ (condDelete_clears _ _ hc)

/-- Witness for the amended claim C4 on a request carrying both headers in
mixed casing with nonempty values. -/
theorem c4_forwarded_headers_stripped_witness :
    hasHeader (proxyRequestToDockerWithStrippedAuthInfo
      [("X-Registry-Auth", "Zm9v"), ("x-registry-config", "abc")]) "x-registry-auth" = false ∧
    hasHeader (proxyRequestToDockerWithStrippedAuthInfo
      [("X-Registry-Auth", "Zm9v"), ("x-registry-config", "abc")]) "x-registry-config" = false :=
  c4_forwarded_headers_stripped
    [("X-Registry-Auth", "Zm9v"), ("x-registry-config", "abc")]
    (by decide) (by decide)

end Swarmgate
